import Mathlib

/-!
Verification development for the notebookmd report-generation library.

Shallow embedding of the plugin-based widget-rendering and asset-bookkeeping
engine: the fragment renderers (`src/notebookmd/widgets.py`,
`src/notebookmd/emitters.py`), the asset store (`src/notebookmd/assets.py`),
the plugin registry (`src/notebookmd/plugins.py`) and the report accumulator
(`src/notebookmd/core.py`).  Python runtime values that can reach the
renderers are modelled by the `PyVal` type; raising Python code is modelled
with `Except String`; the in-place mutation of the `Notebook` object is
modelled by explicit state passing over `NotebookState`.
-/

namespace NotebookMD

/-- Plain Python runtime values as they reach the renderers.  Strings keep
their text, containers keep their elements, and any other object is opaque
with only its `str()` representation (`obj`).  Python floats do not occur as
container cells in any theorem below and are not modelled; numeric values are
`int`.  Dict keys are modelled as strings (all table/metric dicts in the
library use string keys) and are assumed distinct. -/
inductive PyVal where
  | none
  | bool (b : Bool)
  | int (n : Int)
  | str (s : String)
  | list (xs : List PyVal)
  | tuple (xs : List PyVal)
  | dict (kvs : List (String × PyVal))
  | obj (s : String)

mutual

/-- Python `str(v)`.  Escaping inside `repr` of nested strings is not
modelled (no theorem below stringifies a container holding a string). -/
def pyStr : PyVal → String
  | .none => "None"
  | .bool true => "True"
  | .bool false => "False"
  | .int n => toString n
  | .str s => s
  | .list xs => "[" ++ pyReprList xs ++ "]"
  | .tuple [x] => "(" ++ pyRepr x ++ ",)"
  | .tuple xs => "(" ++ pyReprList xs ++ ")"
  | .dict kvs => "\x7b" ++ pyReprKVs kvs ++ "\x7d"
  | .obj s => s

/-- Python `repr(v)` (used for elements inside containers). -/
def pyRepr : PyVal → String
  | .str s => "\x27" ++ s ++ "\x27"
  | .list xs => "[" ++ pyReprList xs ++ "]"
  | .tuple [x] => "(" ++ pyRepr x ++ ",)"
  | .tuple xs => "(" ++ pyReprList xs ++ ")"
  | .dict kvs => "\x7b" ++ pyReprKVs kvs ++ "\x7d"
  | .none => "None"
  | .bool true => "True"
  | .bool false => "False"
  | .int n => toString n
  | .obj s => s

def pyReprList : List PyVal → String
  | [] => ""
  | [x] => pyRepr x
  | x :: xs => pyRepr x ++ ", " ++ pyReprList xs

def pyReprKVs : List (String × PyVal) → String
  | [] => ""
  | [kv] => "\x27" ++ kv.1 ++ "\x27: " ++ pyRepr kv.2
  | kv :: kvs => "\x27" ++ kv.1 ++ "\x27: " ++ pyRepr kv.2 ++ ", " ++ pyReprKVs kvs

end

/-- Python `len(v)`; raises `TypeError` on objects with no `__len__`. -/
def pyLen : PyVal → Except String Nat
  | .list xs => .ok xs.length
  | .tuple xs => .ok xs.length
  | .str s => .ok s.length
  | .dict kvs => .ok kvs.length
  | _ => .error "TypeError: object has no len()"

/-- Python iteration `list(v)`; strings yield their characters as one-char
strings, dicts yield their keys; raises `TypeError` otherwise. -/
def pyIter : PyVal → Except String (List PyVal)
  | .list xs => .ok xs
  | .tuple xs => .ok xs
  | .str s => .ok (s.toList.map (fun c => PyVal.str (String.mk [c])))
  | .dict kvs => .ok (kvs.map (fun kv => PyVal.str kv.1))
  | _ => .error "TypeError: object is not iterable"

/-- First-match lookup in a dict modelled as an association list. -/
def dictGet (kvs : List (String × PyVal)) (k : String) : Option PyVal :=
  (kvs.find? (fun kv => kv.1 = k)).map (fun kv => kv.2)

/-- Digit-string to `Nat` (the numeric value of a run of decimal digits). -/
def digitsToNat (cs : List Char) : Nat :=
  cs.foldl (fun a c => a * 10 + (c.toNat - 48)) 0

/-- Holds when `pat` is a prefix of `cs` (Boolean, structural). -/
def isPrefixL : List Char → List Char → Bool
  | [], _ => true
  | _ :: _, [] => false
  | p :: ps, c :: cs => p == c && isPrefixL ps cs

/-- Holds when `pat` occurs somewhere in `cs` (Boolean, structural). -/
def containsL (pat : List Char) : List Char → Bool
  | [] => isPrefixL pat []
  | c :: cs => isPrefixL pat (c :: cs) || containsL pat cs

/-- Python `s.startswith(p)`. -/
def pyStartsWith (s p : String) : Bool :=
  isPrefixL p.data s.data

/-- Python `s[n:]` (drop the first `n` characters). -/
def pyDrop (s : String) (n : Nat) : String :=
  String.mk (s.data.drop n)

/-- Strip leading whitespace characters. -/
def trimLeftL (cs : List Char) : List Char :=
  cs.dropWhile Char.isWhitespace

/-- Strip trailing whitespace characters. -/
def trimRightL (cs : List Char) : List Char :=
  (cs.reverse.dropWhile Char.isWhitespace).reverse

/-- Python `s.strip()`. -/
def pyStrip (s : String) : String :=
  String.mk (trimLeftL (trimRightL s.data))

/-- Python `s.rstrip()`. -/
def pyRstrip (s : String) : String :=
  String.mk (trimRightL s.data)

/-- Left-to-right non-overlapping replacement of `pat` by `rep`, with
enough fuel to scan the whole input (fuel-structured so the kernel can
evaluate it; with `fuel ≥ cs.length` it is Python `s.replace`). -/
def replaceFuel (pat rep : List Char) : Nat → List Char → List Char
  | 0, cs => cs
  | _ + 1, [] => []
  | fuel + 1, c :: cs =>
      if isPrefixL pat (c :: cs) then
        rep ++ replaceFuel pat rep fuel (List.drop (pat.length - 1) cs)
      else
        c :: replaceFuel pat rep fuel cs

/-- Python `s.replace(pat, rep)` for a non-empty pattern (every call site
in the library passes a non-empty literal pattern). -/
def pyReplace (s pat rep : String) : String :=
  if pat.data.isEmpty then s
  else String.mk (replaceFuel pat.data rep.data s.data.length s.data)

/-- Split on a single separator character (Python `s.split(sep)` for a
one-character separator, which is all the library needs: `"."` and
`"/"`). -/
def splitOnChar (sep : Char) : List Char → List (List Char)
  | [] => [[]]
  | c :: cs =>
      if c == sep then [] :: splitOnChar sep cs
      else
        match splitOnChar sep cs with
        | [] => [[c]]
        | h :: t => (c :: h) :: t

/-- Python `float(s)` for a plain decimal string: optional surrounding
whitespace, optional sign, digits with an optional fractional part
(`"1."` and `".5"` are accepted, `"."` and `""` are not).  The result is an
exact rational; sign comparisons agree with Python for every decimal literal.
Exponent notation, `inf`/`nan` and `_` digit separators are not modelled (no
claim involves them). -/
def parseFloat (s : String) : Option Rat :=
  let t := pyStrip s
  let neg := pyStartsWith t "-"
  let u := if neg ∨ pyStartsWith t "+" then pyDrop t 1 else t
  match splitOnChar '.' u.data with
  | [ip] =>
      if ¬ ip.isEmpty ∧ ip.all Char.isDigit then
        some (if neg then -(digitsToNat ip : Rat) else (digitsToNat ip : Rat))
      else none
  | [ip, fp] =>
      if (¬ ip.isEmpty ∨ ¬ fp.isEmpty) ∧ ip.all Char.isDigit ∧ fp.all Char.isDigit then
        let mag : Rat := (digitsToNat ip : Rat) + (digitsToNat fp : Rat) / ((10 : Rat) ^ fp.length)
        some (if neg then -mag else mag)
      else none
  | _ => none

/-- Python `float(delta)` on an arbitrary value: ints and bools convert,
strings are parsed, everything else raises `TypeError` (`none` result).
Both call sites in `widgets.py` catch `(ValueError, TypeError)`, so a `none`
result models the caught-exception path. -/
def pyFloat : PyVal → Option Rat
  | .int n => some (n : Rat)
  | .bool true => some 1
  | .bool false => some 0
  | .str s => parseFloat s
  | _ => none

/-- Python `f"{n:,}"` for a natural number: decimal digits grouped in threes
from the right by commas. -/
def commaGroupAux : List Char → List Char
  | a :: b :: c :: d :: rest => a :: b :: c :: ',' :: commaGroupAux (d :: rest)
  | l => l

def fmtComma (n : Nat) : String :=
  String.mk ((commaGroupAux (Nat.repr n).data.reverse).reverse)

/-- Holds when `sub` occurs somewhere inside `hay` (decidable substring test used to
state the concrete-scenario claims; `pat` is always non-empty below). -/
def hasSub (hay pat : String) : Bool :=
  containsL pat.data hay.data

/-- Python truthiness of the optional `columns` argument:
`columns or default` / `list(columns) if columns else default` — an absent or
EMPTY list falls back to the auto-detected headers. -/
def columnsOrDefault (columns : Option (List String)) (dflt : List String) : List String :=
  match columns with
  | some cs => if cs.isEmpty then dflt else cs
  | none => dflt

/-- Models `zip(*values, strict=True)` over already-materialised column iterables
(`emitters.py` line 60): all columns must have equal length, otherwise
`ValueError` is raised; `zip()` of zero iterables is empty. -/
def zipStrict (cols : List (List PyVal)) : Except String (List (List PyVal)) :=
  match cols with
  | [] => .ok []
  | c :: rest =>
      if rest.all (fun c2 => c2.length = c.length) then
        .ok (List.transpose (c :: rest))
      else
        .error "ValueError: zip() argument has a different length (strict=True)"

/-- Embeds `emitters._normalize_table_data` (emitters.py lines 28-63).  Returns
`ok (some (headers, rows))` for a recognised shape, `ok none` when the shape
is not recognised (the caller degrades), and `error` when the Python code
raises: `row.get` on a non-dict row (`AttributeError`), `len`/iteration of a
non-sized row (`TypeError`), a missing explicit column key (`KeyError`), or
unequal column lengths under `zip(..., strict=True)` (`ValueError`). -/
def _normalize_table_data (data : PyVal) (columns : Option (List String)) :
    Except String (Option (List String × List (List PyVal))) := do
  match data with
  | .list (r0 :: rest) | .tuple (r0 :: rest) =>
      let rows' := r0 :: rest
      match r0 with
      | .dict kvs0 =>
          -- list/tuple of dicts → row-oriented
          let headers := columnsOrDefault columns (kvs0.map (fun kv => kv.1))
          let rows ← rows'.mapM (fun row =>
            match row with
            | .dict kvs => Except.ok (headers.map (fun h => (dictGet kvs h).getD (.str "")))
            | _ => Except.error "AttributeError: object has no attribute get")
          return some (headers, rows)
      | .list _ | .tuple _ =>
          -- list/tuple of lists/tuples → row-oriented
          let lens ← rows'.mapM pyLen
          let ncols := lens.foldl max 0
          let headers := columnsOrDefault columns ((List.range ncols).map (fun i => "col_" ++ toString i))
          let rows ← rows'.mapM pyIter
          return some (headers, rows)
      | _ =>
          -- a list whose first element is neither dict nor list/tuple is
          -- not a dict itself, so every branch guard fails
          return Option.none
  | .dict (kv0 :: kvs) =>
      -- dict of sequences → column-oriented
      let kvs' := kv0 :: kvs
      let headers := columnsOrDefault columns (kvs'.map (fun kv => kv.1))
      let values ← headers.mapM (fun h =>
        match dictGet kvs' h with
        | some v => Except.ok v
        | Option.none => Except.error "KeyError: missing column key")
      let cols ← values.mapM pyIter
      let rows ← zipStrict cols
      return some (headers, rows)
  | _ => return Option.none

/-- Embeds `emitters._render_md_table` (emitters.py lines 66-73). -/
def _render_md_table (headers : List String) (rows : List (List PyVal)) : String :=
  let lines : List String :=
    ["| " ++ String.intercalate " | " headers ++ " |",
     "| " ++ String.intercalate " | " (headers.map (fun _ => "---")) ++ " |"]
    ++ rows.map (fun row => "| " ++ String.intercalate " | " (row.map pyStr) ++ " |")
  String.intercalate "\n" lines ++ "\n"

/-- The fallback notice emitted for unrecognised table shapes. -/
def unsupportedNotice : String :=
  "> **Note:** Unsupported data type. Pass a list of dicts, list of lists,"
  ++ " a column-oriented dict, or install pandas for DataFrame support.\n\n"

/-- Embeds `emitters.render_table` (emitters.py lines 76-143), plain-Python path.
The pandas branch is guarded by `hasattr(data, "to_markdown") and
hasattr(data, "columns")`, which is false for every plain-Python value
modelled by `PyVal`, so it never fires here.  `max_rows` is a natural number
(the library always passes the non-negative configured maximum). -/
def render_table (data : PyVal) (name : String) (max_rows : Nat)
    (columns : Option (List String)) : Except String String :=
  match _normalize_table_data data columns with
  | .error e => .error e
  | .ok (some (headers, rows)) =>
      let nrows := rows.length
      let ncols := headers.length
      let view := rows.take max_rows
      let view := if nrows > max_rows then view ++ [List.replicate ncols (PyVal.str "…")] else view
      .ok ("#### " ++ name ++ "\n\n"
        ++ _render_md_table headers view ++ "\n"
        ++ "_shape: " ++ fmtComma nrows ++ " rows × " ++ fmtComma ncols ++ " cols_\n\n")
  | .ok Option.none =>
      .ok ("#### " ++ name ++ "\n\n" ++ unsupportedNotice)

/-- The `delta_color` literal of `widgets.render_metric` /
`st.metric`-style API: `Literal["normal", "inverse", "off"]`. -/
inductive DeltaColor where
  | normal
  | inverse
  | off
deriving DecidableEq

/-- Embeds `widgets.render_metric` (widgets.py lines 24-60).  `float(delta)`
(modelled by `pyFloat`) decides between the arrow row and the plain-text
row; `ValueError`/`TypeError` from the conversion are caught (the `none`
case of `pyFloat`). -/
def render_metric (label : String) (value : PyVal) (delta : Option PyVal)
    (delta_color : DeltaColor) : String :=
  let base : List String :=
    ["| **" ++ label ++ "** |", "| :---: |", "| **" ++ pyStr value ++ "** |"]
  let deltaLines : List String :=
    match delta with
    | Option.none => []
    | some d =>
        match pyFloat d with
        | some num =>
            let arrow : String :=
              if delta_color = .off then ""
              else if (delta_color = .normal ∧ 0 < num) ∨ (delta_color = .inverse ∧ num < 0) then "▲ "
              else if (delta_color = .normal ∧ num < 0) ∨ (delta_color = .inverse ∧ 0 < num) then "▼ "
              else ""
            ["| " ++ arrow ++ pyStr d ++ " |"]
        | Option.none => ["| " ++ pyStr d ++ " |"]
  String.intercalate "\n" (base ++ deltaLines ++ ["", ""])

/-- One entry of the `metrics` list passed to `widgets.render_metric_row`:
a dict with required `label`/`value` and optional `delta`/`delta_color`
(the source raises `KeyError` on a missing label — not modelled, every
claim supplies one; `m.get("delta_color", "normal")` is the field
default). -/
structure MetricEntry where
  label : String
  value : PyVal
  delta : Option PyVal := Option.none
  delta_color : DeltaColor := .normal

/-- The per-column delta cleaning of `widgets.render_metric_row`
(widgets.py lines 98-101): strip `%` and `,`, trim whitespace, drop one
leading `+`. -/
def cleanDelta (s : String) : String :=
  let c := pyStrip (pyReplace (pyReplace s "%" "") "," "")
  if pyStartsWith c "+" then pyDrop c 1 else c

/-- Embeds `widgets.render_metric_row` (widgets.py lines 63-127). -/
def render_metric_row (metrics : List MetricEntry) : String :=
  if metrics.isEmpty then "" else
  let has_any_delta := metrics.any (fun m => m.delta.isSome)
  let headers := metrics.map (fun m => " **" ++ m.label ++ "** ")
  let aligns := metrics.map (fun _ => " :---: ")
  let values := metrics.map (fun m => " **" ++ pyStr m.value ++ "** ")
  let deltas : List String :=
    if has_any_delta then
      metrics.map (fun m =>
        match m.delta with
        | some d =>
            match parseFloat (cleanDelta (pyStr d)) with
            | some num =>
                let arrow : String :=
                  if m.delta_color = .off then ""
                  else if (m.delta_color = .normal ∧ 0 < num) ∨ (m.delta_color = .inverse ∧ num < 0) then "▲ "
                  else if (m.delta_color = .normal ∧ num < 0) ∨ (m.delta_color = .inverse ∧ 0 < num) then "▼ "
                  else ""
                " " ++ arrow ++ pyStr d ++ " "
            | Option.none => " " ++ pyStr d ++ " "
        | Option.none => " — ")
    else []
  let lines : List String :=
    ["|" ++ String.intercalate "|" headers ++ "|",
     "|" ++ String.intercalate "|" aligns ++ "|",
     "|" ++ String.intercalate "|" values ++ "|"]
    ++ (if has_any_delta then ["|" ++ String.intercalate "|" deltas ++ "|"] else [])
  String.intercalate "\n" (lines ++ ["", ""])

/-- Embeds `widgets.render_title` (widgets.py lines 301-310); `if anchor:` is
Python truthiness, so an empty anchor behaves like no anchor. -/
def render_title (text : String) (anchor : Option String) : String :=
  match anchor with
  | some a =>
      if a = "" then "# " ++ text ++ "\n\n"
      else "# " ++ text ++ " \x7b#" ++ a ++ "\x7d\n\n"
  | Option.none => "# " ++ text ++ "\n\n"

/-- Embeds `widgets.render_header` (widgets.py lines 313-327). -/
def render_header (text : String) (anchor : Option String) (divider : Bool) : String :=
  let line :=
    match anchor with
    | some a => if a = "" then "## " ++ text else "## " ++ text ++ " \x7b#" ++ a ++ "\x7d"
    | Option.none => "## " ++ text
  line ++ "\n\n" ++ (if divider then "---\n\n" else "")

/-- Embeds `widgets.render_subheader` (widgets.py lines 330-344). -/
def render_subheader (text : String) (anchor : Option String) (divider : Bool) : String :=
  let line :=
    match anchor with
    | some a => if a = "" then "### " ++ text else "### " ++ text ++ " \x7b#" ++ a ++ "\x7d"
    | Option.none => "### " ++ text
  line ++ "\n\n" ++ (if divider then "---\n\n" else "")

/-- Embeds `widgets.render_caption` (widgets.py lines 347-353). -/
def render_caption (text : String) : String :=
  "_" ++ text ++ "_\n\n"

/-- Embeds `emitters.render_md` (emitters.py lines 13-15); Python `rstrip()` is
modelled by `trimRight` (whitespace sets agree on ASCII). -/
def render_md (text : String) : String :=
  pyRstrip text ++ "\n\n"

/-- Embeds `emitters.render_note` (emitters.py lines 18-20). -/
def render_note (text : String) : String :=
  "> **Note:** " ++ pyStrip text ++ "\n\n"

/-- Embeds `widgets.render_image` (widgets.py lines 550-572); `if width:` and
`caption or rel_path` are Python truthiness (`width=0` and `caption=""`
are falsy). -/
def render_image (rel_path : String) (caption : String) (width : Option Nat) : String :=
  let alt := if caption = "" then rel_path else caption
  let useHtml : Bool := match width with | some w => w != 0 | Option.none => false
  if useHtml then
    let w := width.getD 0
    "<img src=\"" ++ rel_path ++ "\" alt=\"" ++ alt ++ "\" width=\"" ++ toString w ++ "\" />\n\n"
    ++ (if caption = "" then "" else "_" ++ caption ++ "_\n\n")
  else
    "![" ++ alt ++ "](" ++ rel_path ++ ")\n\n"
    ++ (if caption = "" then "" else "_" ++ caption ++ "_\n\n")

/-- Embeds `AssetManager.register` (assets.py lines 31-34): append the relative
path to the artifact list only if it is not already present. -/
def register (artifacts : List String) (rel : String) : List String :=
  if rel ∈ artifacts then artifacts else artifacts ++ [rel]

/-- A whole sequence of `register` calls starting from the freshly
constructed (empty) artifact list. -/
def registerAll (seq : List String) : List String :=
  seq.foldl register []

/-- Models `pathlib.Path(art).name` for the POSIX relative paths the library
registers (the last `/`-separated component; pathlib's normalisation of
trailing separators and drive letters is not needed by any registered
path). -/
def pathName (p : String) : String :=
  (((splitOnChar '/' p.data).map String.mk).getLastD p)

/-- Embeds `AssetManager.render_index` (assets.py lines 209-218). -/
def render_index (artifacts : List String) : String :=
  if artifacts.isEmpty then "_No artifacts generated._\n"
  else
    String.intercalate "\n"
      (artifacts.map (fun art => "- [" ++ pathName art ++ "](" ++ art ++ ")")) ++ "\n"

/-- Models `os.path.relpath(absolute, start=base)` for the only case `save_figure`
produces (the asset lives under a directory that extends `base`); the
general `..`-traversal of `relpath` is not exercised by any theorem
below. -/
def rel_path (base absolute : String) : String :=
  if pyStartsWith absolute (base ++ "/") then pyDrop absolute (base.length + 1) else absolute

/-- The state the `AssetManager` owns (assets.py lines 13-21). -/
structure AssetMgr where
  assets_dir : String
  base_dir : String
  artifacts : List String

/-- Observable effects of one `AssetManager.save_figure` call, in program
order: creating the assets directory, the `fig.savefig` write, the
`plt.close(fig)` release, and the artifact registration. -/
inductive FigEvent where
  | ensureDir
  | savefig (path : String) (dpi : Nat)
  | closeFig
  | registerPath (rel : String)
deriving DecidableEq

/-- Result of a `save_figure` call: the effects performed, the updated
manager state, and the returned relative path or the raised exception. -/
structure FigResult where
  events : List FigEvent
  mgr : AssetMgr
  outcome : Except String String

/-- Embeds `AssetManager.save_figure` (assets.py lines 40-63).  `mplAvailable`
models whether `import matplotlib.pyplot` succeeds; `savefigOk` models
whether the `fig.savefig(...)` write succeeds.  The source executes
`fig.savefig` and `plt.close(fig)` as two sequential statements with no
`try`/`finally`, so a raising write skips the close, the registration and
the return. -/
def save_figure (mplAvailable savefigOk : Bool) (mgr : AssetMgr)
    (filename : String) (dpi : Nat) : FigResult :=
  if mplAvailable = false then
    { events := [], mgr := mgr,
      outcome := .error ("ImportError: matplotlib is required for saving figures."
        ++ " Install with: pip install notebookmd[plotting]") }
  else
    let out_file := mgr.assets_dir ++ "/" ++ filename
    if savefigOk = false then
      { events := [.ensureDir, .savefig out_file dpi], mgr := mgr,
        outcome := .error "OSError: savefig failed" }
    else
      let rel := rel_path mgr.base_dir out_file
      { events := [.ensureDir, .savefig out_file dpi, .closeFig, .registerPath rel],
        mgr := { mgr with artifacts := register mgr.artifacts rel },
        outcome := .ok rel }

/-- A plugin class as the registry sees it: its `name` class attribute and
the names of the public callables its instances expose (`get_methods`,
plugins.py lines 66-82). -/
structure PluginClass where
  name : String
  methods : List String

/-- Python dict assignment `d[k] = v`: overwrite in place if the key is
present, append otherwise. -/
def dictSet (reg : List (String × PluginClass)) (k : String) (v : PluginClass) :
    List (String × PluginClass) :=
  if reg.any (fun kv => kv.1 = k) then
    reg.map (fun kv => if kv.1 = k then (k, v) else kv)
  else reg ++ [(k, v)]

/-- Embeds `plugins.register_plugin` (plugins.py lines 90-107).  `isSubclass`
models the `issubclass(plugin_cls, PluginSpec)` runtime check. -/
def register_plugin (reg : List (String × PluginClass)) (p : PluginClass)
    (isSubclass : Bool) : Except String (List (String × PluginClass)) :=
  if isSubclass = false then
    .error "TypeError: Expected a PluginSpec subclass"
  else if p.name = "" then
    .error "ValueError: plugin must have a non-empty name"
  else
    .ok (dictSet reg p.name p)

/-- Embeds `NotebookConfig` (core.py lines 65-70). -/
structure NotebookConfig where
  max_table_rows : Nat := 30
  float_format : String := "\x7b:.4f\x7d"

/-- The mutable state of one `Notebook` instance (core.py lines 95-110):
title, configuration, the started flag, the filename counter, the fragment
buffer and the owned asset manager's artifact list.  `boundMethods` is the
set of instance attributes installed beyond the class-declared ones — the
constructor in the source installs none (there is no plugin auto-load and
no `use` method in core.py). -/
structure NotebookState where
  title : String
  cfg : NotebookConfig
  started : Bool
  counter : Nat
  chunks : List String
  artifacts : List String
  boundMethods : List String

/-- Embeds `Notebook.__init__` (core.py lines 95-110).  The ambient global plugin
registry is passed in so that claims about construction-time auto-loading
can be stated; the source constructor never reads it and binds no plugin
methods onto the instance. -/
def Notebook.construct (registry : List (String × PluginClass)) (title : String)
    (cfg : NotebookConfig) : NotebookState :=
  { title := title, cfg := cfg, started := false, counter := 0,
    chunks := [], artifacts := [], boundMethods := [] }

/-- The literal placeholder token emitted into the header and replaced at
finalize time. -/
def PLACEHOLDER_TOKEN : String := "\x7b\x7bARTIFACTS_PLACEHOLDER\x7d\x7d"

/-- The three header fragments `_ensure_started` appends on first start
(core.py lines 124-127), with `now` the formatted `datetime.now()`. -/
def headerChunks (now title : String) : List String :=
  ["# " ++ title ++ "\n\n_Generated: " ++ now ++ "_\n\n",
   "## Artifacts\n\n",
   PLACEHOLDER_TOKEN ++ "\n\n---\n\n"]

/-- Embeds `Notebook._ensure_started` (core.py lines 116-127).  The directory
creations are filesystem effects with no bearing on the buffer and are not
modelled. -/
def _ensure_started (now : String) (st : NotebookState) : NotebookState :=
  if st.started then st
  else { st with started := true, chunks := st.chunks ++ headerChunks now st.title }

/-- Embeds `Notebook.to_markdown` (core.py lines 824-829): ensure started, join
the buffer, substitute the artifact index for the placeholder.  Returns the
string together with the (possibly started) state. -/
def to_markdown (now : String) (st : NotebookState) : String × NotebookState :=
  let st' := _ensure_started now st
  ((pyReplace (String.join st'.chunks) PLACEHOLDER_TOKEN (render_index st'.artifacts)), st')

/-- Embeds `Notebook.save` (core.py lines 807-822): same computation as
`to_markdown`; the first component is the exact string written to the
output file (UTF-8 write/read round-trips byte-identically). -/
def save (now : String) (st : NotebookState) : String × NotebookState :=
  let st' := _ensure_started now st
  let content := String.join st'.chunks
  let artifact_index := render_index st'.artifacts
  (pyReplace content PLACEHOLDER_TOKEN artifact_index, st')

/-- The string-source branch of `Notebook.image` (core.py lines 577-579):
emit the image fragment and return the source unchanged.  This branch
performs no filesystem operation and never touches the asset manager; the
non-string branch (PIL/numpy sources) saves a file instead and is the other
arm of the `isinstance(source, str)` test. -/
def Notebook.image_of_str (source caption : String) (width : Option Nat)
    (st : NotebookState) : NotebookState × String :=
  ({ st with chunks := st.chunks ++ [render_image source caption width] }, source)

/-- One user-visible `Notebook` call.  This covers the representative
surface the claims quantify over: the heading methods that call
`_ensure_started` (`section`/`title`/`header`/`subheader`, core.py lines
136-195) and the content methods that do not (`caption`/`md`/`note`/
`metric`/`metric_row`/`table`/`image`, core.py lines 197-286, 239-242,
557-584).  `sect` is `Notebook.section` (plain-call style; the
context-manager exit only appends one more fragment). -/
inductive Call where
  | sect (title description : String)
  | title (text : String) (anchor : Option String)
  | header (text : String) (anchor : Option String) (divider : Bool)
  | subheader (text : String) (anchor : Option String) (divider : Bool)
  | caption (text : String)
  | md (text : String)
  | note (text : String)
  | metric (label : String) (value : PyVal) (delta : Option PyVal) (delta_color : DeltaColor)
  | metricRow (metrics : List MetricEntry)
  | table (data : PyVal) (name : String) (max_rows : Option Nat)
  | image (source caption : String) (width : Option Nat)

/-- Whether the method backing a call invokes `_ensure_started` before
emitting (true exactly for `section`, `title`, `header`, `subheader`). -/
def ensuresStart : Call → Bool
  | .sect _ _ => true
  | .title _ _ => true
  | .header _ _ _ => true
  | .subheader _ _ _ => true
  | _ => false

/-- Append fragments to the buffer (`Notebook._w`, core.py lines 112-114,
one list element per `_w` call). -/
def appendChunks (st : NotebookState) (frags : List String) : NotebookState :=
  { st with chunks := st.chunks ++ frags }

/-- Execute one `Notebook` call against the state.  A call whose renderer
raises (only `table`, via `_normalize_table_data`) propagates the
exception. -/
def step (now : String) (c : Call) (st : NotebookState) : Except String NotebookState :=
  match c with
  | .sect t d =>
      let st' := _ensure_started now st
      .ok (appendChunks st' (["## " ++ t ++ "\n\n"] ++ (if d = "" then [] else ["_" ++ d ++ "_\n\n"])))
  | .title t a =>
      .ok (appendChunks (_ensure_started now st) [render_title t a])
  | .header t a dv =>
      .ok (appendChunks (_ensure_started now st) [render_header t a dv])
  | .subheader t a dv =>
      .ok (appendChunks (_ensure_started now st) [render_subheader t a dv])
  | .caption t => .ok (appendChunks st [render_caption t])
  | .md t => .ok (appendChunks st [render_md t])
  | .note t => .ok (appendChunks st [render_note t])
  | .metric l v d dc => .ok (appendChunks st [render_metric l v d dc])
  | .metricRow ms => .ok (appendChunks st [render_metric_row ms])
  | .table data name mr =>
      match render_table data name (mr.getD st.cfg.max_table_rows) Option.none with
      | .ok frag => .ok (appendChunks st [frag])
      | .error e => .error e
  | .image s cap w => .ok (Notebook.image_of_str s cap w st).1

/-- Run a sequence of `Notebook` calls; an uncaught exception aborts the
program as in Python. -/
def run (now : String) : List Call → NotebookState → Except String NotebookState
  | [], st => .ok st
  | c :: cs, st =>
      match step now c st with
      | .ok st' => run now cs st'
      | .error e => .error e

/-- Boolean `Except.isOk` specialised to the result type of `run`/`render_table`. -/
def exOk {α : Type} : Except String α → Bool
  | .ok _ => true
  | .error _ => false

/-- Spec-side model of first-occurrence deduplication (claim C5's "exactly
one entry, at the position of its first registration"): keep each path the
first time it appears, skipping paths already seen. -/
def dedupFirstAcc (seen : List String) : List String → List String
  | [] => []
  | a :: l => if a ∈ seen then dedupFirstAcc seen l else a :: dedupFirstAcc (seen ++ [a]) l

/-- Spec-side first-occurrence dedup of a registration sequence. -/
def dedupFirstSpec (seq : List String) : List String :=
  dedupFirstAcc [] seq

theorem foldl_register_eq_dedupFirstAcc (seq : List String) :
    ∀ acc : List String, seq.foldl register acc = acc ++ dedupFirstAcc acc seq := by
  induction seq with
  | nil => intro acc; simp [dedupFirstAcc]
  | cons a l ih =>
      intro acc
      by_cases h : a ∈ acc
      · simp only [List.foldl, register, dedupFirstAcc, if_pos h]
        exact ih acc
      · simp only [List.foldl, register, dedupFirstAcc, if_neg h]
        rw [ih (acc ++ [a]), List.append_assoc]
        rfl

theorem dedupFirstAcc_count (p : String) : ∀ (l seen : List String),
    (dedupFirstAcc seen l).count p = if p ∈ seen then 0 else if p ∈ l then 1 else 0 := by
  intro l
  induction l with
  | nil => intro seen; simp [dedupFirstAcc]
  | cons a l ih =>
      intro seen
      by_cases ha : a ∈ seen
      · rw [dedupFirstAcc, if_pos ha, ih seen]
        by_cases hp : p ∈ seen
        · simp [hp]
        · have hpa : p ≠ a := fun h => hp (h ▸ ha)
          simp [hp, List.mem_cons, hpa]
      · rw [dedupFirstAcc, if_neg ha]
        by_cases hpa : p = a
        · subst hpa
          have h1 : p ∉ seen := ha
          have h2 : p ∈ seen ++ [p] := by simp
          simp [List.count_cons_self, ih (seen ++ [p]), h2, h1]
        · rw [List.count_cons_of_ne hpa, ih (seen ++ [a])]
          have : (p ∈ seen ++ [a]) ↔ (p ∈ seen) := by simp [hpa]
          by_cases hp : p ∈ seen
          · simp [hp, this]
          · simp [hp, this, List.mem_cons, hpa]

theorem dedupFirstAcc_sublist : ∀ (l seen : List String), List.Sublist (dedupFirstAcc seen l) l := by
  intro l
  induction l with
  | nil => intro seen; simp [dedupFirstAcc]
  | cons a l ih =>
      intro seen
      by_cases ha : a ∈ seen
      · rw [dedupFirstAcc, if_pos ha]
        exact (ih seen).cons a
      · rw [dedupFirstAcc, if_neg ha]
        exact (ih (seen ++ [a])).cons₂ a

theorem ensure_started_idem (now₁ now₂ : String) (st : NotebookState) :
    _ensure_started now₂ (_ensure_started now₁ st) = _ensure_started now₁ st := by
  cases hst : st.started
  · simp [_ensure_started, hst]
  · simp [_ensure_started, hst]

/-- Claim C1: finalize is idempotent and both variants agree.  For every
reachable notebook state (hence for any sequence of `Notebook` calls) and
any pair of wall-clock instants, calling `to_markdown` twice yields the
same string and leaves the state fixed, `save` writes exactly the string
`to_markdown` returns, and repeated `save` writes byte-identical content. -/
theorem finalize_idempotent_and_consistent (st : NotebookState) (now₁ now₂ : String) :
    (to_markdown now₂ (to_markdown now₁ st).2).1 = (to_markdown now₁ st).1
    ∧ (to_markdown now₂ (to_markdown now₁ st).2).2 = (to_markdown now₁ st).2
    ∧ (save now₁ st).1 = (to_markdown now₁ st).1
    ∧ (save now₂ (save now₁ st).2).1 = (save now₁ st).1
    ∧ (save now₂ (save now₁ st).2).2 = (save now₁ st).2 := by
  refine ⟨?_, ?_, ?_, ?_, ?_⟩ <;>
    simp [to_markdown, save, ensure_started_idem]

/-- Claim C5: registration deduplicates keeping first-registration order,
and the rendered index is one list item per registered path in that order
(or the no-artifacts notice for the empty list).  `registerAll` is a whole
sequence of `AssetManager.register` calls on a fresh manager; its result is
exactly the first-occurrence dedup of the sequence, each registered path
occurs exactly once, the result is a sublist of the registration sequence
(order preserved), and `render_index` lists exactly those paths in that
order. -/
theorem asset_register_dedup_and_index (seq : List String) :
    registerAll seq = dedupFirstSpec seq
    ∧ (∀ p, (registerAll seq).count p = if p ∈ seq then 1 else 0)
    ∧ List.Sublist (registerAll seq) seq
    ∧ render_index (registerAll seq) =
        (if seq.isEmpty then "_No artifacts generated._\n"
         else String.intercalate "\n"
           ((dedupFirstSpec seq).map (fun art => "- [" ++ pathName art ++ "](" ++ art ++ ")")) ++ "\n") := by
  have hmain : registerAll seq = dedupFirstSpec seq := by
    unfold registerAll dedupFirstSpec
    simpa using foldl_register_eq_dedupFirstAcc seq []
  refine ⟨hmain, ?_, ?_, ?_⟩
  · intro p
    rw [hmain]
    simpa [dedupFirstSpec] using dedupFirstAcc_count p seq []
  · rw [hmain]
    exact dedupFirstAcc_sublist seq []
  · rw [hmain]
    cases seq with
    | nil => simp [dedupFirstSpec, dedupFirstAcc, render_index]
    | cons a l =>
        have hne : dedupFirstSpec (a :: l) = a :: dedupFirstAcc [a] l := by
          simp [dedupFirstSpec, dedupFirstAcc]
        rw [hne]
        simp [render_index, hne]

/-- Claim C10: `Notebook.image` on a string source emits exactly the image
fragment for that string, returns the string unchanged, and leaves the
asset store untouched: the artifact list, its rendered index, the started
flag and the filename counter are all identical before and after. -/
theorem image_string_source_pure_emit (source caption : String) (width : Option Nat)
    (st : NotebookState) :
    (Notebook.image_of_str source caption width st).2 = source
    ∧ (Notebook.image_of_str source caption width st).1.artifacts = st.artifacts
    ∧ render_index (Notebook.image_of_str source caption width st).1.artifacts
        = render_index st.artifacts
    ∧ (Notebook.image_of_str source caption width st).1.chunks
        = st.chunks ++ [render_image source caption width]
    ∧ (Notebook.image_of_str source caption width st).1.started = st.started
    ∧ (Notebook.image_of_str source caption width st).1.counter = st.counter :=
  ⟨rfl, rfl, rfl, rfl, rfl, rfl⟩

theorem append_left_ne_empty (s t : String) (hs : s ≠ "") : s ++ t ≠ "" := by
  intro h
  apply hs
  cases s with
  | mk ds =>
      cases t with
      | mk dt =>
          have hd : ds ++ dt = [] := congrArg String.data h
          have : ds = [] := (List.append_eq_nil.mp hd).1
          cases this
          rfl

theorem render_table_eq_of_error {data : PyVal} {cols : Option (List String)} {e : String}
    (name : String) (m : Nat)
    (h : _normalize_table_data data cols = .error e) :
    render_table data name m cols = .error e := by
  simp [render_table, h]

theorem render_table_eq_of_none {data : PyVal} {cols : Option (List String)}
    (name : String) (m : Nat)
    (h : _normalize_table_data data cols = .ok Option.none) :
    render_table data name m cols = .ok ("#### " ++ name ++ "\n\n" ++ unsupportedNotice) := by
  simp [render_table, h]

theorem render_table_eq_of_some {data : PyVal} {cols : Option (List String)}
    {headers : List String} {rows : List (List PyVal)} (name : String) (m : Nat)
    (h : _normalize_table_data data cols = .ok (some (headers, rows))) :
    render_table data name m cols = .ok ("#### " ++ name ++ "\n\n"
      ++ _render_md_table headers
           (if rows.length > m then
              rows.take m ++ [List.replicate headers.length (PyVal.str "…")]
            else rows.take m) ++ "\n"
      ++ "_shape: " ++ fmtComma rows.length ++ " rows × "
      ++ fmtComma headers.length ++ " cols_\n\n") := by
  simp [render_table, h]

/-- Claim C4: table truncation is correct.  For every recognized tabular
input (one `_normalize_table_data` accepts, yielding `rows` and `headers`)
rendered with maximum `M`: when `M < R` (the true row count) the table body
is exactly the first `M` data rows followed by exactly one ellipsis row all
of whose cells are `…`, and the shape annotation reports `R`; when `R ≤ M`
the body is exactly the rows with no ellipsis row, again annotated with
`R`. -/
theorem table_truncation_correct (data : PyVal) (name : String) (cols : Option (List String))
    (headers : List String) (rows : List (List PyVal)) (M : Nat)
    (h : _normalize_table_data data cols = .ok (some (headers, rows))) :
    (M < rows.length →
       render_table data name M cols = .ok ("#### " ++ name ++ "\n\n"
         ++ _render_md_table headers
              (rows.take M ++ [List.replicate headers.length (PyVal.str "…")]) ++ "\n"
         ++ "_shape: " ++ fmtComma rows.length ++ " rows × "
         ++ fmtComma headers.length ++ " cols_\n\n")
       ∧ (rows.take M).length = M)
    ∧ (rows.length ≤ M →
       render_table data name M cols = .ok ("#### " ++ name ++ "\n\n"
         ++ _render_md_table headers rows ++ "\n"
         ++ "_shape: " ++ fmtComma rows.length ++ " rows × "
         ++ fmtComma headers.length ++ " cols_\n\n")) := by
  constructor
  · intro hM
    refine ⟨?_, ?_⟩
    · rw [render_table_eq_of_some name M h, if_pos (show rows.length > M from hM)]
    · simp [List.length_take, Nat.min_eq_left (le_of_lt hM)]
  · intro hM
    have hnot : ¬ rows.length > M := not_lt.mpr hM
    have htake : rows.take M = rows := List.take_of_length_le hM
    rw [render_table_eq_of_some name M h, if_neg hnot, htake]

/-- The three-row two-column list-of-dicts table used by the concrete
scenarios. -/
def demoTable : PyVal :=
  .list [.dict [("a", .int 1), ("b", .int 2)],
         .dict [("a", .int 3), ("b", .int 4)],
         .dict [("a", .int 5), ("b", .int 6)]]

/-- The rows `_normalize_table_data` produces for `demoTable`. -/
def demoRows : List (List PyVal) :=
  [[.int 1, .int 2], [.int 3, .int 4], [.int 5, .int 6]]

/-- Witness for C4 at a concrete input: three rows truncated to two get
exactly two data rows plus the all-`…` row and report `3 rows`; with the
maximum at 30 no ellipsis row appears. -/
theorem table_truncation_correct_witness :
    (render_table demoTable "T" 2 Option.none = .ok ("#### T\n\n"
       ++ _render_md_table ["a", "b"]
            (demoRows.take 2 ++ [List.replicate 2 (PyVal.str "…")]) ++ "\n"
       ++ "_shape: " ++ fmtComma 3 ++ " rows × " ++ fmtComma 2 ++ " cols_\n\n")
     ∧ (demoRows.take 2).length = 2)
    ∧ render_table demoTable "T" 30 Option.none = .ok ("#### T\n\n"
       ++ _render_md_table ["a", "b"] demoRows ++ "\n"
       ++ "_shape: " ++ fmtComma 3 ++ " rows × " ++ fmtComma 2 ++ " cols_\n\n") := by
  have h2 := table_truncation_correct demoTable "T" Option.none ["a", "b"] demoRows 2 (by rfl)
  have h30 := table_truncation_correct demoTable "T" Option.none ["a", "b"] demoRows 30 (by rfl)
  exact ⟨h2.1 (by decide), h30.2 (by decide)⟩

/-- Counterexample for C2 as stated: a column-oriented dict whose sequences
have unequal lengths does not degrade to a fallback notice — the renderer
raises (`zip(..., strict=True)` raises `ValueError`). -/
theorem render_table_ragged_dict_raises :
    render_table (PyVal.dict [("a", PyVal.list [PyVal.int 1]), ("b", PyVal.list [])])
        "Table" 30 Option.none
      = .error "ValueError: zip() argument has a different length (strict=True)" := by
  rfl

/-- Claim C2 (amended): `render_table` never returns an empty string, every
unrecognised shape (empty lists, arbitrary objects, ...) yields the clearly
marked fallback notice instead of raising, and the only way `render_table`
raises is by propagating an exception from `_normalize_table_data` (as the
ragged column-oriented dict does). -/
theorem render_table_total_unless_normalize_raises (data : PyVal) (name : String)
    (m : Nat) (cols : Option (List String)) :
    (∀ s, render_table data name m cols = .ok s → s ≠ "")
    ∧ (_normalize_table_data data cols = .ok Option.none →
        render_table data name m cols = .ok ("#### " ++ name ++ "\n\n" ++ unsupportedNotice))
    ∧ (∀ e, render_table data name m cols = .error e →
        _normalize_table_data data cols = .error e) := by
  have hhead : ("#### " : String) ≠ "" := by decide
  cases hn : _normalize_table_data data cols with
  | error e =>
      have hrt := render_table_eq_of_error name m hn
      refine ⟨?_, ?_, ?_⟩
      · intro s hs
        rw [hrt] at hs
        exact absurd hs (by simp)
      · intro hcontr
        exact absurd hcontr (by simp)
      · intro e' he'
        rw [hrt] at he'
        cases he'
        rfl
  | ok r =>
      cases r with
      | none =>
          have hrt := render_table_eq_of_none name m hn
          refine ⟨?_, ?_, ?_⟩
          · intro s hs
            rw [hrt] at hs
            cases hs
            apply append_left_ne_empty
            apply append_left_ne_empty
            exact append_left_ne_empty _ _ hhead
          · intro _
            exact hrt
          · intro e' he'
            rw [hrt] at he'
            exact absurd he' (by simp)
      | some hr =>
          obtain ⟨headers, rows⟩ := hr
          have hrt := render_table_eq_of_some name m hn
          refine ⟨?_, ?_, ?_⟩
          · intro s hs
            rw [hrt] at hs
            cases hs
            repeat apply append_left_ne_empty
            exact hhead
          · intro hcontr
            exact absurd hcontr (by simp)
          · intro e' he'
            rw [hrt] at he'
            exact absurd he' (by simp)

/-- Witness for the amended C2 at concrete inputs: the empty list is
unrecognised, degrades to the fallback notice and that notice is
non-empty. -/
theorem render_table_degrades_witness :
    render_table (PyVal.list []) "Table" 30 Option.none
      = .ok ("#### " ++ "Table" ++ "\n\n" ++ unsupportedNotice)
    ∧ ("#### " ++ "Table" ++ "\n\n" ++ unsupportedNotice) ≠ "" := by
  have h := render_table_total_unless_normalize_raises (PyVal.list []) "Table" 30 Option.none
  exact ⟨h.2.1 (by rfl), h.1 _ (h.2.1 (by rfl))⟩

theorem render_metric_arrow (label : String) (value d : PyVal) (q : Rat) (dc : DeltaColor)
    (hf : pyFloat d = some q) :
    render_metric label value (some d) dc =
      String.intercalate "\n" ["| **" ++ label ++ "** |", "| :---: |",
        "| **" ++ pyStr value ++ "** |",
        "| " ++ (if dc = .off then ""
          else if (dc = .normal ∧ 0 < q) ∨ (dc = .inverse ∧ q < 0) then "▲ "
          else if (dc = .normal ∧ q < 0) ∨ (dc = .inverse ∧ 0 < q) then "▼ "
          else "") ++ pyStr d ++ " |", "", ""] := by
  simp only [render_metric, hf]
  rfl

set_option maxHeartbeats 1600000 in
theorem render_metric_row_single_arrow (label : String) (value d : PyVal) (q : Rat)
    (dc : DeltaColor) (hf : parseFloat (cleanDelta (pyStr d)) = some q) :
    render_metric_row [⟨label, value, some d, dc⟩] =
      String.intercalate "\n" ["|" ++ (" **" ++ label ++ "** ") ++ "|",
        "|" ++ " :---: " ++ "|",
        "|" ++ (" **" ++ pyStr value ++ "** ") ++ "|",
        "|" ++ (" " ++ (if dc = .off then ""
          else if (dc = .normal ∧ 0 < q) ∨ (dc = .inverse ∧ q < 0) then "▲ "
          else if (dc = .normal ∧ q < 0) ∨ (dc = .inverse ∧ 0 < q) then "▼ "
          else "") ++ pyStr d ++ " ") ++ "|", "", ""] := by
  simp only [render_metric_row, List.isEmpty_cons, List.any_cons, List.any_nil,
    List.map_cons, List.map_nil, Option.isSome_some, Bool.or_false]
  simp only [hf]
  rfl

/-- The metric card with a given arrow prefix on the delta row (shape of
`widgets.render_metric` output when `float(delta)` succeeds). -/
def metricLines (label : String) (value d : PyVal) (arrow : String) : String :=
  String.intercalate "\n" ["| **" ++ label ++ "** |", "| :---: |",
    "| **" ++ pyStr value ++ "** |", "| " ++ arrow ++ pyStr d ++ " |", "", ""]

/-- The single-metric row table with a given arrow prefix on the delta cell
(shape of `widgets.render_metric_row` output for one metric whose cleaned
delta parses). -/
def metricRowLines (label : String) (value d : PyVal) (arrow : String) : String :=
  String.intercalate "\n" ["|" ++ (" **" ++ label ++ "** ") ++ "|",
    "|" ++ " :---: " ++ "|",
    "|" ++ (" **" ++ pyStr value ++ "** ") ++ "|",
    "|" ++ (" " ++ arrow ++ pyStr d ++ " ") ++ "|", "", ""]

/-- Claim C8: the metric delta arrow sign table.  For a delta that converts
to a number `q` (`float(delta)` for `render_metric`; for the row renderer,
`float` of the delta text after stripping `%`, `,` and a leading `+`):
with `delta_color="normal"` a positive delta renders the up-arrow and a
negative one the down-arrow; `"inverse"` is exactly reversed; `"off"` shows
the delta text with no arrow glyph — for both the single-metric renderer
and the metric-row renderer. -/
theorem metric_delta_arrow_sign_table (label : String) (value d : PyVal) (q : Rat) :
    (pyFloat d = some q → 0 < q →
       render_metric label value (some d) .normal = metricLines label value d "▲ "
       ∧ render_metric label value (some d) .inverse = metricLines label value d "▼ "
       ∧ render_metric label value (some d) .off = metricLines label value d "")
    ∧ (pyFloat d = some q → q < 0 →
       render_metric label value (some d) .normal = metricLines label value d "▼ "
       ∧ render_metric label value (some d) .inverse = metricLines label value d "▲ "
       ∧ render_metric label value (some d) .off = metricLines label value d "")
    ∧ (parseFloat (cleanDelta (pyStr d)) = some q → 0 < q →
       render_metric_row [⟨label, value, some d, .normal⟩] = metricRowLines label value d "▲ "
       ∧ render_metric_row [⟨label, value, some d, .inverse⟩] = metricRowLines label value d "▼ "
       ∧ render_metric_row [⟨label, value, some d, .off⟩] = metricRowLines label value d "")
    ∧ (parseFloat (cleanDelta (pyStr d)) = some q → q < 0 →
       render_metric_row [⟨label, value, some d, .normal⟩] = metricRowLines label value d "▼ "
       ∧ render_metric_row [⟨label, value, some d, .inverse⟩] = metricRowLines label value d "▲ "
       ∧ render_metric_row [⟨label, value, some d, .off⟩] = metricRowLines label value d "") := by
  refine ⟨fun hf hq => ⟨?_, ?_, ?_⟩, fun hf hq => ⟨?_, ?_, ?_⟩,
          fun hf hq => ⟨?_, ?_, ?_⟩, fun hf hq => ⟨?_, ?_, ?_⟩⟩
  · have h := render_metric_arrow label value d q .normal hf
    rw [if_neg (by decide), if_pos (Or.inl ⟨rfl, hq⟩)] at h
    exact h
  · have h := render_metric_arrow label value d q .inverse hf
    have hn1 : ¬((DeltaColor.inverse = DeltaColor.normal ∧ 0 < q)
        ∨ (DeltaColor.inverse = DeltaColor.inverse ∧ q < 0)) := by
      rintro (⟨hc, _⟩ | ⟨_, h0⟩)
      · cases hc
      · exact lt_asymm hq h0
    rw [if_neg (by decide), if_neg hn1, if_pos (Or.inr ⟨rfl, hq⟩)] at h
    exact h
  · have h := render_metric_arrow label value d q .off hf
    rw [if_pos rfl] at h
    exact h
  · have h := render_metric_arrow label value d q .normal hf
    have hn1 : ¬((DeltaColor.normal = DeltaColor.normal ∧ 0 < q)
        ∨ (DeltaColor.normal = DeltaColor.inverse ∧ q < 0)) := by
      rintro (⟨_, h0⟩ | ⟨hc, _⟩)
      · exact lt_asymm hq h0
      · cases hc
    rw [if_neg (by decide), if_neg hn1, if_pos (Or.inl ⟨rfl, hq⟩)] at h
    exact h
  · have h := render_metric_arrow label value d q .inverse hf
    rw [if_neg (by decide), if_pos (Or.inr ⟨rfl, hq⟩)] at h
    exact h
  · have h := render_metric_arrow label value d q .off hf
    rw [if_pos rfl] at h
    exact h
  · have h := render_metric_row_single_arrow label value d q .normal hf
    rw [if_neg (by decide), if_pos (Or.inl ⟨rfl, hq⟩)] at h
    exact h
  · have h := render_metric_row_single_arrow label value d q .inverse hf
    have hn1 : ¬((DeltaColor.inverse = DeltaColor.normal ∧ 0 < q)
        ∨ (DeltaColor.inverse = DeltaColor.inverse ∧ q < 0)) := by
      rintro (⟨hc, _⟩ | ⟨_, h0⟩)
      · cases hc
      · exact lt_asymm hq h0
    rw [if_neg (by decide), if_neg hn1, if_pos (Or.inr ⟨rfl, hq⟩)] at h
    exact h
  · have h := render_metric_row_single_arrow label value d q .off hf
    rw [if_pos rfl] at h
    exact h
  · have h := render_metric_row_single_arrow label value d q .normal hf
    have hn1 : ¬((DeltaColor.normal = DeltaColor.normal ∧ 0 < q)
        ∨ (DeltaColor.normal = DeltaColor.inverse ∧ q < 0)) := by
      rintro (⟨_, h0⟩ | ⟨hc, _⟩)
      · exact lt_asymm hq h0
      · cases hc
    rw [if_neg (by decide), if_neg hn1, if_pos (Or.inl ⟨rfl, hq⟩)] at h
    exact h
  · have h := render_metric_row_single_arrow label value d q .inverse hf
    rw [if_neg (by decide), if_pos (Or.inr ⟨rfl, hq⟩)] at h
    exact h
  · have h := render_metric_row_single_arrow label value d q .off hf
    rw [if_pos rfl] at h
    exact h

/-- Witness for C8 at concrete inputs: an integer delta `2` on the single
metric renders the up-arrow under `normal` and the down-arrow under
`inverse`; the string delta `"+12%"` on a metric row (cleaned to `12`)
renders the up-arrow; the negative delta `-3` under `normal` renders the
down-arrow and under `off` no arrow. -/
theorem metric_delta_arrow_sign_table_witness :
    render_metric "L" (PyVal.str "V") (some (PyVal.int 2)) .normal
      = metricLines "L" (PyVal.str "V") (PyVal.int 2) "▲ "
    ∧ render_metric "L" (PyVal.str "V") (some (PyVal.int 2)) .inverse
      = metricLines "L" (PyVal.str "V") (PyVal.int 2) "▼ "
    ∧ render_metric_row [⟨"L", PyVal.str "V", some (PyVal.str "+12%"), .normal⟩]
      = metricRowLines "L" (PyVal.str "V") (PyVal.str "+12%") "▲ "
    ∧ render_metric "L" (PyVal.str "V") (some (PyVal.int (-3))) .normal
      = metricLines "L" (PyVal.str "V") (PyVal.int (-3)) "▼ "
    ∧ render_metric "L" (PyVal.str "V") (some (PyVal.int (-3))) .off
      = metricLines "L" (PyVal.str "V") (PyVal.int (-3)) "" := by
  refine ⟨?_, ?_, ?_, ?_, ?_⟩
  · exact ((metric_delta_arrow_sign_table "L" (PyVal.str "V") (PyVal.int 2) 2).1
      (by decide) (by decide)).1
  · exact ((metric_delta_arrow_sign_table "L" (PyVal.str "V") (PyVal.int 2) 2).1
      (by decide) (by decide)).2.1
  · exact ((metric_delta_arrow_sign_table "L" (PyVal.str "V") (PyVal.str "+12%") 12).2.2.1
      (by decide) (by decide)).1
  · exact ((metric_delta_arrow_sign_table "L" (PyVal.str "V") (PyVal.int (-3))
      (-3)).2.1 (by decide) (by decide)).1
  · exact ((metric_delta_arrow_sign_table "L" (PyVal.str "V") (PyVal.int (-3))
      (-3)).2.1 (by decide) (by decide)).2.2

/-- Counterexample for C9 as stated: when the underlying file write raises
(`savefigOk = false`), `plt.close(fig)` is not attempted — the event trace
of the failing call contains no close event. -/
theorem save_figure_failed_write_skips_close :
    (save_figure true false ⟨"out/assets", "out", []⟩ "fig.png" 160).events
      = [.ensureDir, .savefig "out/assets/fig.png" 160]
    ∧ ((save_figure true false ⟨"out/assets", "out", []⟩ "fig.png" 160).events.contains
        FigEvent.closeFig) = false
    ∧ (save_figure true false ⟨"out/assets", "out", []⟩ "fig.png" 160).outcome
      = .error "OSError: savefig failed" := by
  refine ⟨rfl, rfl, rfl⟩

/-- Claim C9 (amended): `save_figure` closes the figure synchronously on
every successful save (after the write, before registration), but when the
write raises the exception propagates and the close is not attempted: the
trace stops at the failed write, the artifact list is unchanged and no
relative path is returned. -/
theorem save_figure_close_only_on_success (mgr : AssetMgr) (filename : String) (dpi : Nat) :
    (save_figure true true mgr filename dpi).events
      = [.ensureDir, .savefig (mgr.assets_dir ++ "/" ++ filename) dpi, .closeFig,
         .registerPath (rel_path mgr.base_dir (mgr.assets_dir ++ "/" ++ filename))]
    ∧ (save_figure true true mgr filename dpi).outcome
      = .ok (rel_path mgr.base_dir (mgr.assets_dir ++ "/" ++ filename))
    ∧ (save_figure true true mgr filename dpi).mgr.artifacts
      = register mgr.artifacts (rel_path mgr.base_dir (mgr.assets_dir ++ "/" ++ filename))
    ∧ (save_figure true false mgr filename dpi).events
      = [.ensureDir, .savefig (mgr.assets_dir ++ "/" ++ filename) dpi]
    ∧ ((save_figure true false mgr filename dpi).events.contains FigEvent.closeFig) = false
    ∧ (save_figure true false mgr filename dpi).mgr = mgr
    ∧ (save_figure true false mgr filename dpi).outcome = .error "OSError: savefig failed" :=
  ⟨rfl, rfl, rfl, rfl, rfl, rfl, rfl⟩

/-- Claim C7 (the code violates it): `Notebook.__init__` does not auto-load
globally registered plugins.  Registering a plugin whose instances expose
`global_method` and then constructing a `Notebook` leaves the instance with
no bound plugin methods at all — for every registry state, construction
binds nothing (core.py lines 95-110 never consult the registry, and
`Notebook` has no `use` method), so the registered method is not callable
on the new instance. -/
theorem construct_binds_no_plugin_methods (registry : List (String × PluginClass))
    (title : String) (cfg : NotebookConfig) :
    register_plugin [] ⟨"global_test", ["global_method"]⟩ true
      = .ok [("global_test", ⟨"global_test", ["global_method"]⟩)]
    ∧ (Notebook.construct [("global_test", ⟨"global_test", ["global_method"]⟩)]
        title cfg).boundMethods = []
    ∧ (Notebook.construct registry title cfg).boundMethods = [] :=
  ⟨rfl, rfl, rfl⟩

theorem step_preserves (now : String) (c : Call) (st st' : NotebookState)
    (hs : st.started = true) (h : step now c st = .ok st') :
    st'.started = true ∧ ∃ e, st'.chunks = st.chunks ++ e := by
  have hens : _ensure_started now st = st := by simp [_ensure_started, hs]
  cases c with
  | sect t d =>
      simp only [step, hens, Except.ok.injEq] at h
      subst h
      exact ⟨hs, _, rfl⟩
  | title t a =>
      simp only [step, hens, Except.ok.injEq] at h
      subst h
      exact ⟨hs, _, rfl⟩
  | header t a dv =>
      simp only [step, hens, Except.ok.injEq] at h
      subst h
      exact ⟨hs, _, rfl⟩
  | subheader t a dv =>
      simp only [step, hens, Except.ok.injEq] at h
      subst h
      exact ⟨hs, _, rfl⟩
  | caption t =>
      simp only [step, Except.ok.injEq] at h
      subst h
      exact ⟨hs, _, rfl⟩
  | md t =>
      simp only [step, Except.ok.injEq] at h
      subst h
      exact ⟨hs, _, rfl⟩
  | note t =>
      simp only [step, Except.ok.injEq] at h
      subst h
      exact ⟨hs, _, rfl⟩
  | metric l v d dc =>
      simp only [step, Except.ok.injEq] at h
      subst h
      exact ⟨hs, _, rfl⟩
  | metricRow ms =>
      simp only [step, Except.ok.injEq] at h
      subst h
      exact ⟨hs, _, rfl⟩
  | table data name mr =>
      simp only [step] at h
      cases hr : render_table data name (mr.getD st.cfg.max_table_rows) Option.none with
      | error e => rw [hr] at h; cases h
      | ok frag =>
          rw [hr] at h
          simp only [Except.ok.injEq] at h
          subst h
          exact ⟨hs, _, rfl⟩
  | image s cap w =>
      simp only [step, Except.ok.injEq] at h
      subst h
      exact ⟨hs, _, rfl⟩

theorem run_preserves (now : String) : ∀ (cs : List Call) (st st' : NotebookState),
    st.started = true → run now cs st = .ok st' →
    st'.started = true ∧ ∃ e, st'.chunks = st.chunks ++ e := by
  intro cs
  induction cs with
  | nil =>
      intro st st' hs h
      simp only [run, Except.ok.injEq] at h
      subst h
      exact ⟨hs, [], by simp⟩
  | cons c cs ih =>
      intro st st' hs h
      simp only [run] at h
      cases hstep : step now c st with
      | error e => rw [hstep] at h; cases h
      | ok st1 =>
          rw [hstep] at h
          obtain ⟨h1, e1, he1⟩ := step_preserves now c st st1 hs hstep
          obtain ⟨h2, e2, he2⟩ := ih st1 st' h1 h
          exact ⟨h2, e1 ++ e2, by rw [he2, he1, List.append_assoc]⟩

theorem step_start_header (now : String) (c : Call) (hc : ensuresStart c = true)
    (registry : List (String × PluginClass)) (title : String) (cfg : NotebookConfig)
    (st' : NotebookState)
    (h : step now c (Notebook.construct registry title cfg) = .ok st') :
    st'.started = true ∧ ∃ e, st'.chunks = headerChunks now title ++ e := by
  cases c with
  | sect t d =>
      simp only [step, _ensure_started, Notebook.construct, Except.ok.injEq] at h
      subst h
      exact ⟨rfl, _, rfl⟩
  | title t a =>
      simp only [step, _ensure_started, Notebook.construct, Except.ok.injEq] at h
      subst h
      exact ⟨rfl, _, rfl⟩
  | header t a dv =>
      simp only [step, _ensure_started, Notebook.construct, Except.ok.injEq] at h
      subst h
      exact ⟨rfl, _, rfl⟩
  | subheader t a dv =>
      simp only [step, _ensure_started, Notebook.construct, Except.ok.injEq] at h
      subst h
      exact ⟨rfl, _, rfl⟩
  | caption t => simp [ensuresStart] at hc
  | md t => simp [ensuresStart] at hc
  | note t => simp [ensuresStart] at hc
  | metric l v d dc => simp [ensuresStart] at hc
  | metricRow ms => simp [ensuresStart] at hc
  | table data name mr => simp [ensuresStart] at hc
  | image s cap w => simp [ensuresStart] at hc

/-- Claim C6 (amended): whenever the first call of the sequence is one of
the heading methods that invoke `_ensure_started` (`section`, `title`,
`header`, `subheader`), the finalized buffer opens with exactly the header
block — the `# <title>` line with the generation timestamp, the
`## Artifacts` heading and the placeholder-with-rule fragment — and every
content fragment follows it (the buffer is append-only, so fragments appear
in call order after the header).  Without that condition the claim fails:
content methods such as `caption` do not ensure the header and their
fragments precede it (see the counterexample). -/
theorem header_block_precedes_content (now : String)
    (registry : List (String × PluginClass)) (title : String) (cfg : NotebookConfig)
    (c : Call) (cs : List Call) (st' : NotebookState)
    (hc : ensuresStart c = true)
    (h : run now (c :: cs) (Notebook.construct registry title cfg) = .ok st') :
    st'.started = true ∧ ∃ rest, st'.chunks = headerChunks now title ++ rest := by
  simp only [run] at h
  cases hstep : step now c (Notebook.construct registry title cfg) with
  | error e => rw [hstep] at h; cases h
  | ok st1 =>
      rw [hstep] at h
      obtain ⟨h1, e1, he1⟩ := step_start_header now c hc registry title cfg st1 hstep
      obtain ⟨h2, e2, he2⟩ := run_preserves now cs st1 st' h1 h
      exact ⟨h2, e1 ++ e2, by rw [he2, he1, List.append_assoc]⟩

/-- Witness for the amended C6 at a concrete input: a run beginning with
`header("Results")` yields a buffer that is exactly the header block
followed by the heading fragment. -/
theorem header_block_precedes_content_witness :
    ({ title := "Demo", cfg := {}, started := true, counter := 0,
       chunks := headerChunks "T0" "Demo" ++ ["## Results\n\n"],
       artifacts := [], boundMethods := [] } : NotebookState).started = true
    ∧ ∃ rest,
      ({ title := "Demo", cfg := {}, started := true, counter := 0,
         chunks := headerChunks "T0" "Demo" ++ ["## Results\n\n"],
         artifacts := [], boundMethods := [] } : NotebookState).chunks
        = headerChunks "T0" "Demo" ++ rest := by
  exact header_block_precedes_content "T0" [] "Demo" {}
    (Call.header "Results" Option.none false) [] _ (by rfl) (by rfl)

/-- Counterexample for C6 as stated: `caption` (like `md`, `note`,
`metric`, `table`, ...) does not call `_ensure_started`, so when it is the
first call its fragment lands in the buffer before the header block, and
the finalized document starts with the caption text, not with
`# <title>`. -/
theorem caption_first_precedes_header :
    run "T0" [Call.caption "hi"] (Notebook.construct [] "Report" {})
      = .ok { title := "Report", cfg := {}, started := false, counter := 0,
              chunks := ["_hi_\n\n"], artifacts := [], boundMethods := [] }
    ∧ pyStartsWith (to_markdown "T1"
        { title := "Report", cfg := {}, started := false, counter := 0,
          chunks := ["_hi_\n\n"], artifacts := [], boundMethods := [] }).1 "_hi_" = true
    ∧ pyStartsWith (to_markdown "T1"
        { title := "Report", cfg := {}, started := false, counter := 0,
          chunks := ["_hi_\n\n"], artifacts := [], boundMethods := [] }).1 "# " = false := by
  refine ⟨rfl, rfl, rfl⟩

/-- The §8 concrete scenario: a notebook titled "Demo", one heading
"Results", one metric (Revenue / $1.2M / delta "+12%"), one 3-row table
with `max_rows=30`, then finalize. -/
def demoCalls : List Call :=
  [Call.header "Results" Option.none false,
   Call.metric "Revenue" (PyVal.str "$1.2M") (some (PyVal.str "+12%")) .normal,
   Call.table demoTable "Table" (some 30)]

/-- The finalized document of the §8 scenario (the run succeeds; the error
arm is unreachable and returns the raised message). -/
def demoDoc : String :=
  match run "T0" demoCalls (Notebook.construct [] "Demo" {}) with
  | .ok st => (to_markdown "T0" st).1
  | .error e => e

set_option maxRecDepth 4096 in
/-- Counterexample for C3 as stated: the scenario document contains no
up-arrow glyph at all — `render_metric` applies `float` to the raw delta
string, `float("+12%")` raises `ValueError`, and the caught exception path
renders the delta as plain text — so there is no "up-arrow line containing
+12%", although the delta text itself does appear. -/
theorem demo_scenario_no_up_arrow :
    hasSub demoDoc "▲" = false ∧ hasSub demoDoc "+12%" = true := by
  refine ⟨rfl, rfl⟩

set_option maxRecDepth 4096 in
/-- Claim C3 (amended): the §8 scenario document contains `# Demo`,
`## Results`, a metric table whose cells contain Revenue and $1.2M, a
plain delta line `| +12% |` with no arrow glyph (rather than an up-arrow
line), a 3-row data table with no ellipsis row, the shape annotation
`3 rows × 2 cols`, and an `## Artifacts` section with the literal
no-artifacts notice. -/
theorem demo_scenario_content :
    hasSub demoDoc "# Demo" = true
    ∧ hasSub demoDoc "## Results" = true
    ∧ hasSub demoDoc "**Revenue**" = true
    ∧ hasSub demoDoc "**$1.2M**" = true
    ∧ hasSub demoDoc "\n| +12% |" = true
    ∧ hasSub demoDoc "| 5 | 6 |" = true
    ∧ hasSub demoDoc "…" = false
    ∧ hasSub demoDoc "_shape: 3 rows × 2 cols_" = true
    ∧ hasSub demoDoc "## Artifacts" = true
    ∧ hasSub demoDoc "_No artifacts generated._" = true
    ∧ hasSub demoDoc "▼" = false := by
  refine ⟨rfl, rfl, rfl, rfl, rfl, rfl, rfl, rfl, rfl, rfl, rfl⟩

end NotebookMD
